import Mathlib

/-!
Shallow embedding of the solar-grid-xpert performance-analysis code
(`ai-analysis-service/ml_model.py`, `ai-analysis-service/app.py`, `ai/main.py`)
over exact rational arithmetic, together with theorems settling the
specification claims about it.
-/

set_option linter.unusedVariables false

namespace SolarGridXpert

/-- Python `round(x, n)`: rounding to `n` decimal places.  Modelled with
round-half-up on the exact rational value; this differs from Python's float
rounding only at exact half-way ties, which none of the analysed inputs hit. -/
def roundTo (n : ℕ) (q : ℚ) : ℚ := ((round (q * 10 ^ n) : ℤ) : ℚ) / 10 ^ n

theorem roundTo_mono (n : ℕ) {q r : ℚ} (h : q ≤ r) : roundTo n q ≤ roundTo n r := by
  unfold roundTo
  have hq : round (q * 10 ^ n) ≤ round (r * 10 ^ n) := by
    rw [round_eq, round_eq]
    exact Int.floor_mono (by nlinarith [pow_pos (show (0:ℚ) < 10 by norm_num) n])
  have h10 : (0:ℚ) < 10 ^ n := pow_pos (by norm_num) n
  exact div_le_div_of_nonneg_right (by exact_mod_cast hq) (le_of_lt h10)

theorem roundTo_zero (n : ℕ) : roundTo n 0 = 0 := by
  unfold roundTo
  simp

theorem roundTo_nonneg (n : ℕ) {q : ℚ} (h : 0 ≤ q) : 0 ≤ roundTo n q := by
  have := roundTo_mono n h
  rwa [roundTo_zero] at this

/-- The telemetry record consumed by `predict_output`: the Python code reads a
dict with `.get(key, default)`, so every field is optional here and the
defaults are applied at each use site exactly as in the source. -/
structure TelemetryInputs where
  irradiance : Option ℚ := none
  ambient_temp : Option ℚ := none
  panel_temp : Option ℚ := none
  battery_soc : Option ℚ := none
  inverter_eff : Option ℚ := none
  soiling_index : Option ℚ := none
  tilt : Option ℚ := none
  azimuth : Option ℚ := none
  wind_speed : Option ℚ := none
  pr_baseline : Option ℚ := none
  system_capacity : Option ℚ := none
  actual_output : Option ℚ := none
  deriving DecidableEq

inductive Priority
  | Critical
  | High
  | Medium
  | Info
  deriving DecidableEq

/-- `priority_order = {'Critical': 0, 'High': 1, 'Medium': 2, 'Info': 3}`. -/
def priority_order : Priority → ℕ
  | .Critical => 0
  | .High => 1
  | .Medium => 2
  | .Info => 3

/-- The recommendation message templates of `_generate_recommendations`, one
constructor per f-string, carrying the interpolated numeric values. -/
inductive RecMsg
  | panel_over_temperature (panel_temp : ℚ)
  | panel_temperature_elevated (panel_temp ambient_temp : ℚ)
  | heavy_soiling (soiling : ℚ)
  | moderate_soiling (soiling : ℚ)
  | inverter_eff_below_baseline (inverter_eff eff_diff : ℚ)
  | battery_critically_low (battery_soc : ℚ)
  | battery_soc_low (battery_soc : ℚ)
  | battery_soc_stable (battery_soc : ℚ)
  | significant_underperformance (deviation : ℚ)
  | output_below_expected (deviation : ℚ)
  | low_irradiance (irradiance : ℚ)
  deriving DecidableEq

structure Recommendation where
  priority : Priority
  msg : RecMsg
  action : String
  deriving DecidableEq

/-- `_calculate_fault_probability(inputs, deviation)`. -/
def calculate_fault_probability (inputs : TelemetryInputs) (deviation : ℚ) : ℚ :=
  let fault_score : ℚ := 0
  let fault_score :=
    if |deviation| > 20 then fault_score + 0.4
    else if |deviation| > 10 then fault_score + 0.2
    else fault_score
  let panel_temp := inputs.panel_temp.getD 35
  let fault_score :=
    if panel_temp > 75 then fault_score + 0.3
    else if panel_temp > 65 then fault_score + 0.1
    else fault_score
  let soiling := inputs.soiling_index.getD 2
  let fault_score := if soiling > 8 then fault_score + 0.2 else fault_score
  let inverter_eff := inputs.inverter_eff.getD 96
  let fault_score := if inverter_eff < 94 then fault_score + 0.1 else fault_score
  min 1 fault_score

/-- The static `feature_importance` table, in dict insertion order. -/
def feature_importance : List (String × ℚ) :=
  [("irradiance", 0.35), ("panel_temp", 0.22), ("inverter_eff", 0.15),
   ("soiling_index", 0.12), ("battery_soc", 0.08), ("ambient_temp", 0.04),
   ("wind_speed", 0.02), ("tilt", 0.01), ("azimuth", 0.01), ("pr_baseline", 0)]

/-- `_get_top_influence_factors`: stable descending sort by weight, first 3
names.  Python's stable `sorted(..., reverse=True)` is a stable merge sort
with the flipped comparator. -/
def get_top_influence_factors : List String :=
  ((feature_importance.mergeSort fun a b => decide (b.2 ≤ a.2)).map Prod.fst).take 3

/-- The body of the `_generate_recommendations` rule list, before the final
sort and truncation: each rule appends zero or one entry, in source order. -/
def generate_recommendations_unsorted (inputs : TelemetryInputs) (deviation : ℚ)
    (actual_output : Option ℚ) : List Recommendation :=
  let panel_temp := inputs.panel_temp.getD 35
  let ambient_temp := inputs.ambient_temp.getD 25
  let soiling := inputs.soiling_index.getD 2
  let inverter_eff := inputs.inverter_eff.getD 96
  let battery_soc := inputs.battery_soc.getD 70
  let irradiance := inputs.irradiance.getD 800
  (if panel_temp > 75 then
    [⟨.Critical, .panel_over_temperature panel_temp,
      "Inspect panels for hotspots, check ventilation, consider tilt adjustment"⟩]
   else if panel_temp > 65 then
    [⟨.High, .panel_temperature_elevated panel_temp ambient_temp,
      "Check for adequate airflow, clean panels if soiled"⟩]
   else []) ++
  (if soiling > 8 then
    [⟨.High, .heavy_soiling soiling, "Schedule panel cleaning service"⟩]
   else if soiling > 4 then
    [⟨.Medium, .moderate_soiling soiling, "Add to maintenance schedule"⟩]
   else []) ++
  (if inverter_eff < 94 then
    [⟨.Medium, .inverter_eff_below_baseline inverter_eff (96.5 - inverter_eff),
      "Check inverter logs, inspect connections, verify AC voltage"⟩]
   else []) ++
  (if battery_soc < 10 then
    [⟨.Critical, .battery_critically_low battery_soc,
      "Reduce load immediately or connect to grid if available"⟩]
   else if battery_soc < 20 then
    [⟨.Medium, .battery_soc_low battery_soc,
      "Check solar generation and load management"⟩]
   else
    [⟨.Info, .battery_soc_stable battery_soc, "Continue monitoring"⟩]) ++
  (if actual_output.isSome ∧ deviation < -20 then
    [⟨.High, .significant_underperformance deviation,
      "Comprehensive system inspection recommended"⟩]
   else if actual_output.isSome ∧ deviation < -10 then
    [⟨.Medium, .output_below_expected deviation,
      "Review system logs and sensor calibration"⟩]
   else []) ++
  (if irradiance < 200 then
    [⟨.Info, .low_irradiance irradiance,
      "Normal for low-light conditions (dawn/dusk/cloudy)"⟩]
   else [])

/-- The comparator of `recommendations.sort(key=lambda x: priority_order...)`. -/
def recLE (a b : Recommendation) : Bool :=
  decide (priority_order a.priority ≤ priority_order b.priority)

/-- `_generate_recommendations`: generate, stable-sort by priority rank,
return the first 6.  Python's in-place `list.sort` is stable, as is
`List.mergeSort`. -/
def generate_recommendations (inputs : TelemetryInputs) (deviation : ℚ)
    (actual_output : Option ℚ) : List Recommendation :=
  ((generate_recommendations_unsorted inputs deviation actual_output).mergeSort recLE).take 6

/-- `_calculate_weather_impact(irradiance, wind_speed, ambient_temp)`. -/
def calculate_weather_impact (irradiance wind_speed ambient_temp : ℚ) : ℚ :=
  let irradiance_score := min 100 (irradiance / 1000 * 100)
  let wind_score :=
    if 2 ≤ wind_speed ∧ wind_speed ≤ 4 then (100 : ℚ)
    else max 0 (100 - |wind_speed - 3| * 10)
  let temp_score := max 0 (100 - |ambient_temp - 25| * 2)
  roundTo 1 (irradiance_score * 0.6 + wind_score * 0.2 + temp_score * 0.2)

/-- `_calculate_battery_health(soc)`, including the initial
`health_score -= 10` branch that the following bucket assignment overwrites. -/
def calculate_battery_health (soc : ℚ) : ℚ :=
  let health_score : ℚ := 100
  let health_score := if soc < 20 ∨ soc > 95 then health_score - 10 else health_score
  let health_score :=
    if 30 ≤ soc ∧ soc ≤ 80 then (100 : ℚ)
    else if (20 ≤ soc ∧ soc < 30) ∨ (80 < soc ∧ soc ≤ 90) then 95
    else 85
  roundTo 1 health_score

/-- The spec's description of the Battery Scorer (§4.7): the bucket function
alone, with no `-10` adjustment.  Used to compare against
`calculate_battery_health`. -/
def battery_health_bucket (soc : ℚ) : ℚ :=
  if 30 ≤ soc ∧ soc ≤ 80 then 100
  else if (20 ≤ soc ∧ soc < 30) ∨ (80 < soc ∧ soc ≤ 90) then 95
  else 85

/-- `temp_correction` of `predict_output`: linear derating clamped to
`[0.7, 1.0]` (`max(0.7, min(1.0, ...))`). -/
def temp_correction_of (panel_temp : ℚ) : ℚ :=
  max 0.7 (min 1 (1 - (panel_temp - 25) * 0.004))

/-- The raw (unrounded) `predicted_output` of `predict_output`, with the
source's `.get` defaults. -/
def predicted_output_raw (inputs : TelemetryInputs) : ℚ :=
  let irradiance := inputs.irradiance.getD 0
  let panel_temp := inputs.panel_temp.getD 35
  let inverter_eff := inputs.inverter_eff.getD 96
  let soiling_index := inputs.soiling_index.getD 2
  let pr_baseline := inputs.pr_baseline.getD 0.8
  let system_capacity := inputs.system_capacity.getD 100
  system_capacity * (irradiance / 1000) * pr_baseline *
    temp_correction_of panel_temp * (1 - soiling_index / 100) * (inverter_eff / 100)

/-- The deviation computation of `predict_output`: `0` unless `actual_output`
is present and the predicted output is strictly positive. -/
def deviation_of (inputs : TelemetryInputs) : ℚ :=
  match inputs.actual_output with
  | none => 0
  | some actual =>
    if predicted_output_raw inputs > 0 then
      (actual - predicted_output_raw inputs) / predicted_output_raw inputs * 100
    else 0

structure PerformanceMetrics where
  temp_correction : ℚ
  soiling_factor : ℚ
  inverter_factor : ℚ
  irradiance_factor : ℚ
  deriving DecidableEq

structure PredictionResult where
  predicted_output : ℚ
  actual_output : ℚ
  deviation : ℚ
  fault_prob : ℚ
  top_factors : List String
  recommendations : List Recommendation
  weather_impact_score : ℚ
  battery_health_score : ℚ
  performance_metrics : PerformanceMetrics
  deriving DecidableEq

/-- `SolarPerformanceModel.predict_output(inputs)`. -/
def predict_output (inputs : TelemetryInputs) : PredictionResult :=
  let irradiance := inputs.irradiance.getD 0
  let ambient_temp := inputs.ambient_temp.getD 25
  let panel_temp := inputs.panel_temp.getD 35
  let battery_soc := inputs.battery_soc.getD 70
  let inverter_eff := inputs.inverter_eff.getD 96
  let soiling_index := inputs.soiling_index.getD 2
  let wind_speed := inputs.wind_speed.getD 2
  let predicted := predicted_output_raw inputs
  let deviation := deviation_of inputs
  { predicted_output := roundTo 2 predicted
    actual_output := inputs.actual_output.getD predicted
    deviation := roundTo 2 deviation
    fault_prob := roundTo 3 (calculate_fault_probability inputs deviation)
    top_factors := get_top_influence_factors
    recommendations := generate_recommendations inputs deviation inputs.actual_output
    weather_impact_score := calculate_weather_impact irradiance wind_speed ambient_temp
    battery_health_score := calculate_battery_health battery_soc
    performance_metrics :=
      { temp_correction := roundTo 3 (temp_correction_of panel_temp)
        soiling_factor := roundTo 3 (1 - soiling_index / 100)
        inverter_factor := roundTo 3 (inverter_eff / 100)
        irradiance_factor := roundTo 3 (irradiance / 1000) } }

inductive ServiceError
  | validationError (field : String)
  | insufficientData
  deriving DecidableEq

/-- `app.py /api/ai_analysis`: validates the three required fields, then runs
the model. -/
def analyze_performance (inputs : TelemetryInputs) : Except ServiceError PredictionResult :=
  if inputs.irradiance.isNone then .error (.validationError "irradiance")
  else if inputs.ambient_temp.isNone then .error (.validationError "ambient_temp")
  else if inputs.panel_temp.isNone then .error (.validationError "panel_temp")
  else .ok (predict_output inputs)

/-- `app.py /api/batch_analysis`: a per-site map over `predict_output`, with
no required-field validation. -/
def batch_analyze (sites : List TelemetryInputs) : List PredictionResult :=
  sites.map predict_output

structure TimeSeriesPoint where
  ts : String
  ghi_wm2 : ℚ
  air_temp_c : ℚ
  wind_ms : ℚ
  ac_kw : ℚ
  deriving DecidableEq

/-- One entry of the forecast list.  `day` stands for the ISO date
`base_date + day` (the source formats `base_date + timedelta(days=day+1)`
as a string; the date arithmetic carries no numeric content). -/
structure ForecastPoint where
  day : ℕ
  ac_kw_hat : ℚ
  lower_bound : ℚ
  upper_bound : ℚ
  deriving DecidableEq

/-- Python `range(start, stop, step)` for a positive step. -/
def range_step (start stop step : ℕ) : List ℕ :=
  (List.range ((stop - start + step - 1) / step)).map fun k => start + k * step

/-- `[ac_values[j] for j in range(i, len(ac_values), 24)]`, out-of-range
reads defaulting to 0 (never exercised: `range_step` stays in bounds). -/
def hour_values (ac_values : List ℚ) (i : ℕ) : List ℚ :=
  (range_step i ac_values.length 24).map fun j => ac_values.getD j 0

/-- The `daily_pattern` loop of `simple_seasonal_forecast`:
`np.mean(hour_values) if hour_values else 0` for each hour index. -/
def daily_pattern (ac_values : List ℚ) : List ℚ :=
  (List.range (min 24 ac_values.length)).map fun i =>
    let hv := hour_values ac_values i
    if hv = [] then 0 else hv.sum / hv.length

/-- `simple_seasonal_forecast(data, forecast_days)`.  The per-day random
multiplier `0.95 + np.random.random() * 0.1` is passed in as `adjustment`
(the draw for day `d` is `adjustment d`); the returned `0.78` is the fixed
confidence. -/
def simple_seasonal_forecast (data : List TimeSeriesPoint) (forecast_days : ℕ)
    (adjustment : ℕ → ℚ) : List ForecastPoint × ℚ :=
  let ac_values := data.map (·.ac_kw)
  let daily_total := (daily_pattern ac_values).sum
  ((List.range forecast_days).map fun day =>
    let predicted := daily_total * adjustment day
    { day := day + 1
      ac_kw_hat := roundTo 2 (max 0 predicted)
      lower_bound := roundTo 2 (max 0 (predicted * 0.85))
      upper_bound := roundTo 2 (predicted * 1.15) },
   0.78)

structure ForecastResponse where
  forecast : List ForecastPoint
  confidence : ℚ
  model_used : String

/-- The `/forecast_power` endpoint: rejects fewer than 24 points, otherwise
runs the seasonal forecaster. -/
def forecast_power (data : List TimeSeriesPoint) (forecast_days : ℕ)
    (adjustment : ℕ → ℚ) : Except ServiceError ForecastResponse :=
  if data.length < 24 then .error .insufficientData
  else
    let fc := simple_seasonal_forecast data forecast_days adjustment
    .ok { forecast := fc.1, confidence := fc.2, model_used := "seasonal_pattern" }

structure AnomalyPoint where
  ts : String
  actual : ℚ
  predicted : ℚ
  deriving DecidableEq

structure AnomalyRecord where
  start : String
  end_ : String
  score : ℚ
  type : String
  magnitude : ℚ
  deriving DecidableEq

/-- `np.percentile(values, p)` with the default linear interpolation:
sort, take position `p/100 * (n-1)`, interpolate between the neighbours. -/
def percentile (values : List ℚ) (p : ℚ) : ℚ :=
  let sorted := values.mergeSort fun a b => decide (a ≤ b)
  let n := sorted.length
  let pos := p * ((n : ℚ) - 1) / 100
  let i := (⌊pos⌋).toNat
  let frac := pos - (⌊pos⌋ : ℚ)
  if i + 1 < n then
    sorted.getD i 0 + frac * (sorted.getD (i + 1) 0 - sorted.getD i 0)
  else sorted.getD i 0

/-- `threshold = q3 + 1.5 * iqr` over the absolute residuals. -/
def tukey_threshold (res_values : List ℚ) : ℚ :=
  let q1 := percentile res_values 25
  let q3 := percentile res_values 75
  q3 + 1.5 * (q3 - q1)

/-- The record appended for a flagged point. -/
def mk_anomaly (point : AnomalyPoint) (threshold : ℚ) : AnomalyRecord :=
  let residual := |point.actual - point.predicted|
  { start := point.ts
    end_ := point.ts
    score := roundTo 3 (min 1 (residual / (threshold * 2)))
    type := "statistical_outlier"
    magnitude := roundTo 2 residual }

/-- The body of the detection loop: append the record and bump
`anomaly_count` when the residual exceeds the threshold. -/
def anomaly_step (threshold : ℚ) (acc : List AnomalyRecord × ℕ)
    (point : AnomalyPoint) : List AnomalyRecord × ℕ :=
  let residual := |point.actual - point.predicted|
  if residual > threshold then (acc.1 ++ [mk_anomaly point threshold], acc.2 + 1)
  else acc

/-- `detect_anomalies_isolation_forest(residuals)`: IQR fence over the
absolute residuals, returning the flagged records and the anomaly rate. -/
def detect_anomalies_isolation_forest (residuals : List AnomalyPoint) :
    List AnomalyRecord × ℚ :=
  let res_values := residuals.map fun p => |p.actual - p.predicted|
  if res_values = [] then ([], 0)
  else
    let threshold := tukey_threshold res_values
    let r := residuals.foldl (anomaly_step threshold) ([], 0)
    (r.1, if residuals = [] then 0 else (r.2 : ℚ) / residuals.length)

structure AnomalyResponse where
  anomalies : List AnomalyRecord
  anomaly_rate : ℚ
  method : String

/-- The `/detect_anomalies` endpoint: rejects fewer than 7 points, otherwise
runs the statistical detector and rounds the rate to 3 decimals. -/
def detect_anomalies (residuals : List AnomalyPoint) :
    Except ServiceError AnomalyResponse :=
  if residuals.length < 7 then .error .insufficientData
  else
    let r := detect_anomalies_isolation_forest residuals
    .ok { anomalies := r.1, anomaly_rate := roundTo 3 r.2, method := "iqr_statistical" }

/-! Helper lemmas shared by several claims. -/

theorem roundTo_eq_of {n : ℕ} {q : ℚ} (k : ℤ) (h1 : (k : ℚ) ≤ q * 10 ^ n + 1 / 2)
    (h2 : q * 10 ^ n + 1 / 2 < (k : ℚ) + 1) : roundTo n q = (k : ℚ) / 10 ^ n := by
  unfold roundTo
  rw [round_eq, Int.floor_eq_iff.mpr ⟨h1, h2⟩]

theorem deviation_of_some_pos {inputs : TelemetryInputs} {a : ℚ}
    (ha : inputs.actual_output = some a) (hp : 0 < predicted_output_raw inputs) :
    deviation_of inputs =
      (a - predicted_output_raw inputs) / predicted_output_raw inputs * 100 := by
  unfold deviation_of
  rw [ha]
  simp only [if_pos hp]

theorem deviation_of_none {inputs : TelemetryInputs}
    (ha : inputs.actual_output = none) : deviation_of inputs = 0 := by
  unfold deviation_of
  rw [ha]

theorem deviation_of_nonpos {inputs : TelemetryInputs}
    (hp : predicted_output_raw inputs ≤ 0) : deviation_of inputs = 0 := by
  unfold deviation_of
  cases ha : inputs.actual_output with
  | none => rfl
  | some a => simp only [if_neg (not_lt.mpr hp)]

/-- The worked example of spec §8: all twelve telemetry fields supplied. -/
def c1_input : TelemetryInputs :=
  { irradiance := some 915, ambient_temp := some 32, panel_temp := some 48,
    battery_soc := some 72, inverter_eff := some 96.4, soiling_index := some 3.1,
    tilt := some 30, azimuth := some 180, wind_speed := some 2.3,
    pr_baseline := some 0.8, system_capacity := some 100, actual_output := some 62.4 }

theorem c1_raw : predicted_output_raw c1_input = 3880411275600 / 62500000000 := by
  norm_num [predicted_output_raw, temp_correction_of, c1_input]

theorem c1_dev : deviation_of c1_input = 19588724400 / 3880411275600 * 100 := by
  rw [deviation_of_some_pos rfl (by rw [c1_raw]; norm_num), c1_raw]
  norm_num

/-- C1 counterexample: on the spec's worked telemetry record the code's
rounded `predicted_output` is 62.09 and its rounded `deviation` is 0.5,
far (by ≥ 1) from the claimed `≈ 60.09` and `≈ 3.85%`: the spec's example
mis-multiplies its own formula (`100*0.915*0.80*0.908*0.969*0.964 = 62.0866`,
not 60.09). -/
theorem C1_counterexample :
    (predict_output c1_input).predicted_output = 62.09 ∧
    (predict_output c1_input).deviation = 0.5 ∧
    1 ≤ |(predict_output c1_input).predicted_output - 60.09| ∧
    1 ≤ |(predict_output c1_input).deviation - 3.85| := by
  have hp : (predict_output c1_input).predicted_output = 62.09 := by
    show roundTo 2 (predicted_output_raw c1_input) = 62.09
    rw [c1_raw, roundTo_eq_of 6209 (by norm_num) (by norm_num)]
    norm_num
  have hd : (predict_output c1_input).deviation = 0.5 := by
    show roundTo 2 (deviation_of c1_input) = 0.5
    rw [c1_dev, roundTo_eq_of 50 (by norm_num) (by norm_num)]
    norm_num
  refine ⟨hp, hd, ?_, ?_⟩
  · rw [hp]; norm_num
  · rw [hd, abs_sub_comm, abs_of_nonneg (by norm_num)]; norm_num

/-- C1 (amended): on the spec's worked telemetry record the analysis returns
`temp_correction = 0.908`, `soiling_factor = 0.969`, `inverter_factor = 0.964`,
`irradiance_factor = 0.915`, `predicted_output = 62.09` (not 60.09),
`deviation = 0.5` (not 3.85), `fault_prob = 0`, and
`battery_health_score = 100`. -/
theorem C1_example_corrected :
    (predict_output c1_input).performance_metrics.temp_correction = 0.908 ∧
    (predict_output c1_input).performance_metrics.soiling_factor = 0.969 ∧
    (predict_output c1_input).performance_metrics.inverter_factor = 0.964 ∧
    (predict_output c1_input).performance_metrics.irradiance_factor = 0.915 ∧
    (predict_output c1_input).predicted_output = 62.09 ∧
    (predict_output c1_input).deviation = 0.5 ∧
    (predict_output c1_input).fault_prob = 0 ∧
    (predict_output c1_input).battery_health_score = 100 := by
  refine ⟨?_, ?_, ?_, ?_, ?_, ?_, ?_, ?_⟩
  · show roundTo 3 (temp_correction_of 48) = 0.908
    rw [show temp_correction_of 48 = 0.908 by norm_num [temp_correction_of],
      roundTo_eq_of 908 (by norm_num) (by norm_num)]
    norm_num
  · show roundTo 3 (1 - 3.1 / 100) = 0.969
    rw [show (1 - 3.1 / 100 : ℚ) = 0.969 by norm_num,
      roundTo_eq_of 969 (by norm_num) (by norm_num)]
    norm_num
  · show roundTo 3 (96.4 / 100) = 0.964
    rw [show (96.4 / 100 : ℚ) = 0.964 by norm_num,
      roundTo_eq_of 964 (by norm_num) (by norm_num)]
    norm_num
  · show roundTo 3 (915 / 1000) = 0.915
    rw [show (915 / 1000 : ℚ) = 0.915 by norm_num,
      roundTo_eq_of 915 (by norm_num) (by norm_num)]
    norm_num
  · show roundTo 2 (predicted_output_raw c1_input) = 62.09
    rw [c1_raw, roundTo_eq_of 6209 (by norm_num) (by norm_num)]
    norm_num
  · show roundTo 2 (deviation_of c1_input) = 0.5
    rw [c1_dev, roundTo_eq_of 50 (by norm_num) (by norm_num)]
    norm_num
  · show roundTo 3 (calculate_fault_probability c1_input (deviation_of c1_input)) = 0
    rw [c1_dev]
    rw [show calculate_fault_probability c1_input (19588724400 / 3880411275600 * 100) = 0 by
      unfold calculate_fault_probability
      norm_num [c1_input, abs_of_nonneg]]
    rw [roundTo_eq_of 0 (by norm_num) (by norm_num)]
    norm_num
  · show calculate_battery_health 72 = 100
    unfold calculate_battery_health
    norm_num
    rw [roundTo_eq_of 1000 (by norm_num) (by norm_num)]
    norm_num

/-- C5: for every `battery_soc`, `_calculate_battery_health` — including its
initial dead `health_score -= 10` branch — equals the pure bucket function
(100 on [30,80], 95 on [20,30) ∪ (80,90], 85 otherwise), so the score is
always one of 85, 95, 100. -/
theorem C5_battery_bucket (soc : ℚ) :
    calculate_battery_health soc = battery_health_bucket soc ∧
    (calculate_battery_health soc = 85 ∨ calculate_battery_health soc = 95 ∨
      calculate_battery_health soc = 100) := by
  have h100 : roundTo 1 (100 : ℚ) = 100 := by
    rw [roundTo_eq_of 1000 (by norm_num) (by norm_num)]; norm_num
  have h95 : roundTo 1 (95 : ℚ) = 95 := by
    rw [roundTo_eq_of 950 (by norm_num) (by norm_num)]; norm_num
  have h85 : roundTo 1 (85 : ℚ) = 85 := by
    rw [roundTo_eq_of 850 (by norm_num) (by norm_num)]; norm_num
  simp only [calculate_battery_health, battery_health_bucket]
  split_ifs <;>
    first
      | exact ⟨h100, .inr (.inr h100)⟩
      | exact ⟨h95, .inr (.inl h95)⟩
      | exact ⟨h85, .inl h85⟩

/-- C4: the fault scorer is exactly `min 1` of the sum of four independent
per-category increments (each category's branches mutually exclusive), and
its value always lies in [0, 1]. -/
theorem C4_fault_probability (inputs : TelemetryInputs) (deviation : ℚ) :
    calculate_fault_probability inputs deviation =
      min 1 ((if |deviation| > 20 then (0.4 : ℚ) else if |deviation| > 10 then 0.2 else 0)
        + (if inputs.panel_temp.getD 35 > 75 then 0.3
           else if inputs.panel_temp.getD 35 > 65 then 0.1 else 0)
        + (if inputs.soiling_index.getD 2 > 8 then 0.2 else 0)
        + (if inputs.inverter_eff.getD 96 < 94 then 0.1 else 0)) ∧
    0 ≤ calculate_fault_probability inputs deviation ∧
    calculate_fault_probability inputs deviation ≤ 1 := by
  have key : calculate_fault_probability inputs deviation =
      min 1 ((if |deviation| > 20 then (0.4 : ℚ) else if |deviation| > 10 then 0.2 else 0)
        + (if inputs.panel_temp.getD 35 > 75 then 0.3
           else if inputs.panel_temp.getD 35 > 65 then 0.1 else 0)
        + (if inputs.soiling_index.getD 2 > 8 then 0.2 else 0)
        + (if inputs.inverter_eff.getD 96 < 94 then 0.1 else 0)) := by
    simp only [calculate_fault_probability]
    exact congrArg (min 1) (by split_ifs <;> norm_num)
  refine ⟨key, ?_, ?_⟩
  · rw [key]
    refine le_min (by norm_num) ?_
    split_ifs <;> norm_num
  · rw [key]
    exact min_le_left _ _

/-- C8: the deviation field is the percentage formula when `actual_output`
is present and the raw predicted output is strictly positive, and is the
defined value 0 when `actual_output` is absent or the predicted output is
not positive — never an error. -/
theorem C8_deviation (inputs : TelemetryInputs) :
    (inputs.actual_output = none → (predict_output inputs).deviation = 0) ∧
    (∀ a : ℚ, inputs.actual_output = some a → 0 < predicted_output_raw inputs →
      (predict_output inputs).deviation =
        roundTo 2 ((a - predicted_output_raw inputs) / predicted_output_raw inputs * 100)) ∧
    (predicted_output_raw inputs ≤ 0 → (predict_output inputs).deviation = 0) := by
  refine ⟨?_, ?_, ?_⟩
  · intro ha
    show roundTo 2 (deviation_of inputs) = 0
    rw [deviation_of_none ha, roundTo_zero]
  · intro a ha hp
    show roundTo 2 (deviation_of inputs) = _
    rw [deviation_of_some_pos ha hp]
  · intro hp
    show roundTo 2 (deviation_of inputs) = 0
    rw [deviation_of_nonpos hp, roundTo_zero]

theorem C8_deviation_witness :
    c1_input.actual_output = some 62.4 ∧ 0 < predicted_output_raw c1_input ∧
    (predict_output c1_input).deviation =
      roundTo 2 ((62.4 - predicted_output_raw c1_input) / predicted_output_raw c1_input * 100) :=
  ⟨rfl, by rw [c1_raw]; norm_num,
    (C8_deviation c1_input).2.1 62.4 rfl (by rw [c1_raw]; norm_num)⟩

/-- A telemetry record whose supplied fields are all non-negative but whose
`soiling_index` exceeds 100%, driving the soiling factor negative. -/
def c3_cex : TelemetryInputs := { irradiance := some 1000, soiling_index := some 150 }

/-- C3 counterexample: every numeric field of `c3_cex` (supplied or default)
is non-negative, yet the predicted output is negative: a soiling index above
100 makes `1 - soiling_index/100` negative and the formula is not clamped. -/
theorem C3_counterexample :
    0 ≤ c3_cex.irradiance.getD 0 ∧ 0 ≤ c3_cex.ambient_temp.getD 25 ∧
    0 ≤ c3_cex.panel_temp.getD 35 ∧ 0 ≤ c3_cex.battery_soc.getD 70 ∧
    0 ≤ c3_cex.inverter_eff.getD 96 ∧ 0 ≤ c3_cex.soiling_index.getD 2 ∧
    0 ≤ c3_cex.tilt.getD 30 ∧ 0 ≤ c3_cex.azimuth.getD 180 ∧
    0 ≤ c3_cex.wind_speed.getD 2 ∧ 0 ≤ c3_cex.pr_baseline.getD 0.8 ∧
    0 ≤ c3_cex.system_capacity.getD 100 ∧
    (predict_output c3_cex).predicted_output < 0 := by
  refine ⟨by norm_num [c3_cex], by norm_num [c3_cex], by norm_num [c3_cex],
    by norm_num [c3_cex], by norm_num [c3_cex], by norm_num [c3_cex],
    by norm_num [c3_cex], by norm_num [c3_cex], by norm_num [c3_cex],
    by norm_num [c3_cex], by norm_num [c3_cex], ?_⟩
  show roundTo 2 (predicted_output_raw c3_cex) < 0
  rw [show predicted_output_raw c3_cex = -36.864 by
    norm_num [predicted_output_raw, temp_correction_of, c3_cex]]
  rw [roundTo_eq_of (-3686) (by norm_num) (by norm_num)]
  norm_num

/-- C3 (amended): whenever every numeric field is non-negative AND the
soiling index does not exceed 100 (so the soiling factor stays
non-negative), the predicted output is non-negative. -/
theorem C3_predicted_nonneg (inputs : TelemetryInputs)
    (h_irr : 0 ≤ inputs.irradiance.getD 0)
    (h_pr : 0 ≤ inputs.pr_baseline.getD 0.8)
    (h_cap : 0 ≤ inputs.system_capacity.getD 100)
    (h_inv : 0 ≤ inputs.inverter_eff.getD 96)
    (h_soil : inputs.soiling_index.getD 2 ≤ 100) :
    0 ≤ (predict_output inputs).predicted_output := by
  show 0 ≤ roundTo 2 (predicted_output_raw inputs)
  apply roundTo_nonneg
  unfold predicted_output_raw
  have htc : 0 ≤ temp_correction_of (inputs.panel_temp.getD 35) :=
    le_trans (by norm_num) (le_max_left _ _)
  have hsf : 0 ≤ 1 - inputs.soiling_index.getD 2 / 100 := by linarith
  refine mul_nonneg (mul_nonneg (mul_nonneg (mul_nonneg (mul_nonneg ?_ ?_) ?_) ?_) ?_) ?_
  · exact h_cap
  · exact div_nonneg h_irr (by norm_num)
  · exact h_pr
  · exact htc
  · exact hsf
  · exact div_nonneg h_inv (by norm_num)

theorem C3_predicted_nonneg_witness :
    0 ≤ c1_input.irradiance.getD 0 ∧ 0 ≤ c1_input.pr_baseline.getD 0.8 ∧
    0 ≤ c1_input.system_capacity.getD 100 ∧ 0 ≤ c1_input.inverter_eff.getD 96 ∧
    c1_input.soiling_index.getD 2 ≤ 100 ∧
    0 ≤ (predict_output c1_input).predicted_output :=
  ⟨by norm_num [c1_input], by norm_num [c1_input], by norm_num [c1_input],
    by norm_num [c1_input], by norm_num [c1_input],
    C3_predicted_nonneg c1_input (by norm_num [c1_input]) (by norm_num [c1_input])
      (by norm_num [c1_input]) (by norm_num [c1_input]) (by norm_num [c1_input])⟩

/-- C9: `forecast_power` fails with the insufficient-data error exactly when
the series has fewer than 24 points, and `detect_anomalies` exactly when the
residual list has fewer than 7 points. -/
theorem C9_length_guards :
    (∀ (data : List TimeSeriesPoint) (days : ℕ) (adj : ℕ → ℚ),
      forecast_power data days adj = .error .insufficientData ↔ data.length < 24) ∧
    (∀ residuals : List AnomalyPoint,
      detect_anomalies residuals = .error .insufficientData ↔ residuals.length < 7) := by
  constructor
  · intro data days adj
    unfold forecast_power
    split_ifs with h
    · simp [h]
    · simp [h]
  · intro residuals
    unfold detect_anomalies
    split_ifs with h
    · simp [h]
    · simp [h]

theorem C9_length_guards_witness :
    forecast_power (List.replicate 23 ⟨"t", 0, 0, 0, 0⟩) 7 (fun _ => 1) =
      .error .insufficientData ∧
    forecast_power (List.replicate 24 ⟨"t", 0, 0, 0, 0⟩) 7 (fun _ => 1) ≠
      .error .insufficientData ∧
    detect_anomalies (List.replicate 6 ⟨"t", 0, 0⟩) = .error .insufficientData ∧
    detect_anomalies (List.replicate 7 ⟨"t", 0, 0⟩) ≠ .error .insufficientData := by
  refine ⟨(C9_length_guards.1 _ _ _).mpr (by simp), ?_, (C9_length_guards.2 _).mpr (by simp), ?_⟩
  · intro hcon
    have := (C9_length_guards.1 _ _ _).mp hcon
    simp at this
  · intro hcon
    have := (C9_length_guards.2 _).mp hcon
    simp at this

/-- C10: when the irradiance field is absent, the predictor substitutes 0
(so the rounded predicted output is 0) while the recommendation engine
substitutes 800 for the same field, so the low-irradiance Info entry never
appears; the record reaches `predict_output` through `batch_analyze`, which
maps over sites with no required-field validation, while the single-site
endpoint rejects it. -/
theorem C10_missing_irradiance (inputs : TelemetryInputs)
    (h : inputs.irradiance = none) :
    (predict_output inputs).predicted_output = 0 ∧
    (∀ rec ∈ (predict_output inputs).recommendations, ∀ q : ℚ,
      rec.msg ≠ RecMsg.low_irradiance q) ∧
    batch_analyze [inputs] = [predict_output inputs] ∧
    analyze_performance inputs = .error (.validationError "irradiance") := by
  refine ⟨?_, ?_, rfl, ?_⟩
  · show roundTo 2 (predicted_output_raw inputs) = 0
    rw [show predicted_output_raw inputs = 0 by unfold predicted_output_raw; rw [h]; simp]
    exact roundTo_zero 2
  · intro rec hmem q
    have h1 : rec ∈ (generate_recommendations_unsorted inputs (deviation_of inputs)
        inputs.actual_output).mergeSort recLE := List.mem_of_mem_take hmem
    have h2 : rec ∈ generate_recommendations_unsorted inputs (deviation_of inputs)
        inputs.actual_output := List.mem_mergeSort.mp h1
    unfold generate_recommendations_unsorted at h2
    simp only [h, Option.getD_none] at h2
    rw [if_neg (by norm_num : ¬((800 : ℚ) < 200))] at h2
    simp only [List.append_nil, List.mem_append] at h2
    rcases h2 with ((((h2 | h2) | h2) | h2) | h2) <;>
      (repeat' split at h2) <;> simp_all
  · unfold analyze_performance
    rw [h]
    rfl

theorem C10_missing_irradiance_witness :
    ({} : TelemetryInputs).irradiance = none ∧
    (predict_output {}).predicted_output = 0 ∧
    analyze_performance {} = .error (.validationError "irradiance") :=
  ⟨rfl, (C10_missing_irradiance {} rfl).1, (C10_missing_irradiance {} rfl).2.2.2⟩

theorem gen_length_le (inputs : TelemetryInputs) (dev : ℚ) (actual : Option ℚ) :
    (generate_recommendations_unsorted inputs dev actual).length ≤ 6 := by
  simp only [generate_recommendations_unsorted]
  split_ifs <;> simp

theorem recLE_trans (a b c : Recommendation) :
    recLE a b → recLE b c → recLE a c := by
  simp only [recLE, decide_eq_true_eq]
  omega

theorem recLE_total (a b : Recommendation) : recLE a b || recLE b a := by
  simp only [recLE, Bool.or_eq_true, decide_eq_true_eq]
  omega

/-- C7: for every telemetry input, deviation and actual-output value, the
recommendation list is sorted non-decreasingly by priority rank, has length
at most 6, and for each priority the entries equal the generation-order
entries of that priority (stability of the sort; the truncation to 6 never
drops anything because at most 6 rules fire). -/
theorem C7_recommendations_sorted (inputs : TelemetryInputs) (dev : ℚ)
    (actual : Option ℚ) :
    List.Pairwise (fun a b => priority_order a.priority ≤ priority_order b.priority)
      (generate_recommendations inputs dev actual) ∧
    (generate_recommendations inputs dev actual).length ≤ 6 ∧
    ∀ p : Priority,
      (generate_recommendations inputs dev actual).filter
          (fun r => decide (r.priority = p)) =
        (generate_recommendations_unsorted inputs dev actual).filter
          (fun r => decide (r.priority = p)) := by
  have hlen : (generate_recommendations_unsorted inputs dev actual).length ≤ 6 :=
    gen_length_le inputs dev actual
  have htake : ((generate_recommendations_unsorted inputs dev actual).mergeSort recLE).take 6 =
      (generate_recommendations_unsorted inputs dev actual).mergeSort recLE :=
    List.take_of_length_le (by rw [List.length_mergeSort]; exact hlen)
  have hgr : generate_recommendations inputs dev actual =
      (generate_recommendations_unsorted inputs dev actual).mergeSort recLE := by
    unfold generate_recommendations
    exact htake
  refine ⟨?_, ?_, ?_⟩
  · rw [hgr]
    exact (List.sorted_mergeSort recLE_trans recLE_total _).imp
      (fun hab => by simpa [recLE, decide_eq_true_eq] using hab)
  · rw [hgr, List.length_mergeSort]
    exact hlen
  · intro p
    rw [hgr]
    have hpw : (List.filter (fun r => decide (r.priority = p))
        (generate_recommendations_unsorted inputs dev actual)).Pairwise
        (fun a b => recLE a b = true) := by
      apply List.pairwise_of_forall_mem_list
      intro a ha b hb
      have hap := (List.mem_filter.mp ha).2
      have hbp := (List.mem_filter.mp hb).2
      simp only [decide_eq_true_eq] at hap hbp
      simp [recLE, hap, hbp]
    have hsub : List.Sublist
        (List.filter (fun r => decide (r.priority = p))
          (generate_recommendations_unsorted inputs dev actual))
        ((generate_recommendations_unsorted inputs dev actual).mergeSort recLE) :=
      List.sublist_mergeSort recLE_trans recLE_total hpw (List.filter_sublist _)
    have hsub2 : List.Sublist
        (List.filter (fun r => decide (r.priority = p))
          (generate_recommendations_unsorted inputs dev actual))
        (List.filter (fun r => decide (r.priority = p))
          ((generate_recommendations_unsorted inputs dev actual).mergeSort recLE)) := by
      have := hsub.filter (fun r => decide (r.priority = p))
      rwa [List.filter_filter, show ((fun (r : Recommendation) => decide (r.priority = p) &&
        decide (r.priority = p))) = (fun r => decide (r.priority = p)) by
          funext r; rw [Bool.and_self]] at this
    have hperm : List.Perm
        (List.filter (fun r => decide (r.priority = p))
          ((generate_recommendations_unsorted inputs dev actual).mergeSort recLE))
        (List.filter (fun r => decide (r.priority = p))
          (generate_recommendations_unsorted inputs dev actual)) :=
      (List.mergeSort_perm _ recLE).filter _
    exact (hsub2.eq_of_length hperm.length_eq.symm).symm

theorem getD_ac_nonneg {data : List TimeSeriesPoint}
    (hac : ∀ p ∈ data, 0 ≤ p.ac_kw) (j : ℕ) :
    0 ≤ (data.map (fun p => p.ac_kw)).getD j 0 := by
  by_cases hj : j < (data.map (fun p => p.ac_kw)).length
  · rw [List.getD_eq_getElem?_getD, List.getElem?_eq_getElem hj]
    simp only [Option.getD_some]
    have hmem : (data.map (fun p => p.ac_kw))[j] ∈ data.map (fun p => p.ac_kw) :=
      List.getElem_mem hj
    obtain ⟨p, hp, he⟩ := List.mem_map.mp hmem
    rw [← he]
    exact hac p hp
  · rw [List.getD_eq_getElem?_getD, List.getElem?_eq_none (by omega)]
    simp

theorem daily_pattern_sum_nonneg {data : List TimeSeriesPoint}
    (hac : ∀ p ∈ data, 0 ≤ p.ac_kw) :
    0 ≤ (daily_pattern (data.map (fun p => p.ac_kw))).sum := by
  apply List.sum_nonneg
  intro x hx
  simp only [daily_pattern, List.mem_map] at hx
  obtain ⟨i, hi, rfl⟩ := hx
  split_ifs with h
  · exact le_refl 0
  · apply div_nonneg
    · apply List.sum_nonneg
      intro y hy
      simp only [hour_values, List.mem_map] at hy
      obtain ⟨j, hj, rfl⟩ := hy
      exact getD_ac_nonneg hac j
    · positivity

/-- C2 (amended): `lower_bound = max(0, predicted*0.85)` and
`upper_bound = predicted*1.15` with the predicted value and lower bound — but
not the upper bound — clamped non-negative; whenever every `ac_kw` in the
input series is non-negative (and the adjustment draws lie in the code's
[0.95, 1.05) range), every forecast point satisfies
`lower_bound ≤ predicted ≤ upper_bound`. -/
theorem C2_forecast_bounds (data : List TimeSeriesPoint) (days : ℕ) (adj : ℕ → ℚ)
    (hlen : 24 ≤ data.length) (hac : ∀ p ∈ data, 0 ≤ p.ac_kw)
    (hadj : ∀ d, 0.95 ≤ adj d ∧ adj d < 1.05) :
    ∀ fp ∈ (simple_seasonal_forecast data days adj).1,
      fp.lower_bound ≤ fp.ac_kw_hat ∧ fp.ac_kw_hat ≤ fp.upper_bound ∧
      0 ≤ fp.lower_bound := by
  intro fp hfp
  simp only [simple_seasonal_forecast, List.mem_map] at hfp
  obtain ⟨day, hday, rfl⟩ := hfp
  have hdp : 0 ≤ (daily_pattern (data.map (fun p => p.ac_kw))).sum :=
    daily_pattern_sum_nonneg hac
  have hpred : 0 ≤ (daily_pattern (data.map (fun p => p.ac_kw))).sum * adj day :=
    mul_nonneg hdp (le_trans (by norm_num) (hadj day).1)
  refine ⟨?_, ?_, ?_⟩
  · apply roundTo_mono
    apply max_le_max (le_refl 0)
    nlinarith
  · apply roundTo_mono
    rw [max_eq_right hpred]
    nlinarith
  · exact roundTo_nonneg 2 (le_max_left 0 _)


theorem hour_values_replicate (c : ℚ) {i : ℕ} (hi : i < 24) :
    hour_values (List.replicate 24 c) i = [c] := by
  unfold hour_values range_step
  rw [List.length_replicate]
  rw [show (24 - i + 24 - 1) / 24 = 1 by omega]
  rw [show List.range 1 = [0] from rfl]
  simp only [List.map_cons, List.map_nil, Nat.zero_mul, Nat.add_zero]
  rw [List.getD_eq_getElem?_getD, List.getElem?_replicate_of_lt hi]
  rfl

theorem daily_pattern_replicate (c : ℚ) :
    daily_pattern (List.replicate 24 c) = List.replicate 24 c := by
  unfold daily_pattern
  rw [List.length_replicate, show min 24 24 = 24 from rfl]
  rw [List.eq_replicate_iff]
  constructor
  · simp
  · intro b hb
    simp only [List.mem_map, List.mem_range] at hb
    obtain ⟨i, hi, rfl⟩ := hb
    rw [hour_values_replicate c hi]
    simp

/-- C2 counterexample: a 24-point series with `ac_kw = -1` everywhere (and a
legal adjustment draw of 1) yields the single forecast point
`(predicted 0, lower 0, upper -27.6)`: the upper bound is not clamped
non-negative, and `predicted ≤ upper_bound` fails. -/
theorem C2_counterexample :
    (simple_seasonal_forecast (List.replicate 24 ⟨"t", 0, 0, 0, -1⟩) 1 (fun _ => 1)).1 =
      [{ day := 1, ac_kw_hat := 0, lower_bound := 0, upper_bound := -27.6 }] ∧
    ¬((0 : ℚ) ≤ -27.6) ∧ (0.95 : ℚ) ≤ 1 ∧ (1 : ℚ) < 1.05 ∧
    (List.replicate 24 (⟨"t", 0, 0, 0, -1⟩ : TimeSeriesPoint)).length = 24 := by
  refine ⟨?_, by norm_num, by norm_num, by norm_num, by simp⟩
  simp only [simple_seasonal_forecast, List.map_replicate, daily_pattern_replicate,
    List.sum_replicate, nsmul_eq_mul]
  rw [show List.range 1 = [0] from rfl]
  simp only [List.map_cons, List.map_nil]
  rw [show ((24:ℕ):ℚ) * -1 * 1 = -24 by push_cast; norm_num]
  rw [show ((0:ℚ) ⊔ -24) = 0 from max_eq_left (by norm_num)]
  rw [show ((-24:ℚ) * 0.85) = -20.4 by norm_num]
  rw [show ((0:ℚ) ⊔ -20.4) = 0 from max_eq_left (by norm_num)]
  rw [show ((-24:ℚ) * 1.15) = -27.6 by norm_num]
  rw [roundTo_zero, roundTo_eq_of (-2760) (by norm_num) (by norm_num)]
  norm_num

theorem C2_forecast_bounds_witness :
    24 ≤ (List.replicate 24 (⟨"t", 0, 0, 0, 5⟩ : TimeSeriesPoint)).length ∧
    (∀ p ∈ List.replicate 24 (⟨"t", 0, 0, 0, 5⟩ : TimeSeriesPoint), 0 ≤ p.ac_kw) ∧
    (∀ d : ℕ, (0.95 : ℚ) ≤ (fun _ => (1 : ℚ)) d ∧ ((fun _ => (1 : ℚ)) d : ℚ) < 1.05) ∧
    (∀ fp ∈ (simple_seasonal_forecast (List.replicate 24 ⟨"t", 0, 0, 0, 5⟩) 7
        (fun _ => 1)).1,
      fp.lower_bound ≤ fp.ac_kw_hat ∧ fp.ac_kw_hat ≤ fp.upper_bound ∧
      0 ≤ fp.lower_bound) :=
  ⟨by simp, fun p hp => by rw [List.eq_of_mem_replicate hp]; norm_num,
   fun d => ⟨by norm_num, by norm_num⟩,
   C2_forecast_bounds _ 7 _ (by simp)
     (fun p hp => by rw [List.eq_of_mem_replicate hp]; norm_num)
     (fun d => ⟨by norm_num, by norm_num⟩)⟩

theorem mergeSort_rat_of_sorted {l : List ℚ} (h : l.Pairwise (· ≤ ·)) :
    l.mergeSort (fun a b => decide (a ≤ b)) = l :=
  List.mergeSort_of_sorted (h.imp fun hab => decide_eq_true hab)

theorem anomaly_foldl (t : ℚ) (l : List AnomalyPoint) :
    ∀ acc : List AnomalyRecord × ℕ,
    (l.foldl (anomaly_step t) acc).1 =
      acc.1 ++ (l.filter fun p => decide (t < |p.actual - p.predicted|)).map
        (fun p => mk_anomaly p t) ∧
    (l.foldl (anomaly_step t) acc).2 =
      acc.2 + (l.filter fun p => decide (t < |p.actual - p.predicted|)).length := by
  induction l with
  | nil => intro acc; simp
  | cons x xs ih =>
    intro acc
    simp only [List.foldl_cons, List.filter_cons]
    by_cases hx : t < |x.actual - x.predicted|
    · rw [if_pos (decide_eq_true hx)]
      rw [show anomaly_step t acc x = (acc.1 ++ [mk_anomaly x t], acc.2 + 1) by
        unfold anomaly_step; rw [if_pos hx]]
      obtain ⟨h1, h2⟩ := ih (acc.1 ++ [mk_anomaly x t], acc.2 + 1)
      constructor
      · rw [h1]
        simp [List.append_assoc]
      · rw [h2]
        simp only [List.length_cons]
        omega
    · rw [if_neg (by simpa using hx)]
      rw [show anomaly_step t acc x = acc by unfold anomaly_step; rw [if_neg hx]]
      exact ih acc

theorem detect_characterization (residuals : List AnomalyPoint)
    (hlen : 7 ≤ residuals.length) :
    (detect_anomalies_isolation_forest residuals).1 =
      (residuals.filter fun p =>
        decide (tukey_threshold (residuals.map fun q => |q.actual - q.predicted|) <
          |p.actual - p.predicted|)).map
        (fun p => mk_anomaly p
          (tukey_threshold (residuals.map fun q => |q.actual - q.predicted|))) ∧
    (detect_anomalies_isolation_forest residuals).2 =
      ((residuals.filter fun p =>
        decide (tukey_threshold (residuals.map fun q => |q.actual - q.predicted|) <
          |p.actual - p.predicted|)).length : ℚ) / residuals.length := by
  have hne : residuals ≠ [] := by
    intro h
    rw [h] at hlen
    simp at hlen
  simp only [detect_anomalies_isolation_forest]
  rw [if_neg (by simpa using hne)]
  obtain ⟨h1, h2⟩ := anomaly_foldl
    (tukey_threshold (residuals.map fun q => |q.actual - q.predicted|)) residuals ([], 0)
  constructor
  · rw [h1, List.nil_append]
  · rw [if_neg hne, h2]
    norm_num


def c6_residuals : List AnomalyPoint :=
  [⟨"t1", 1, 0⟩, ⟨"t2", 1, 0⟩, ⟨"t3", 1, 0⟩, ⟨"t4", 1, 0⟩,
   ⟨"t5", 1, 0⟩, ⟨"t6", 1, 0⟩, ⟨"t7", 10, 0⟩]

theorem percentile_c6_25 : percentile [1, 1, 1, 1, 1, 1, 10] 25 = 1 := by
  simp only [percentile]
  rw [mergeSort_rat_of_sorted (by decide)]
  rw [show (([1, 1, 1, 1, 1, 1, 10] : List ℚ).length) = 7 from rfl]
  rw [show ((25 : ℚ) * ((7 : ℕ) - 1) / 100) = 3 / 2 by push_cast; norm_num]
  rw [show ⌊(3 / 2 : ℚ)⌋ = 1 from Int.floor_eq_iff.mpr (by norm_num)]
  norm_num [List.getD]


theorem percentile_c6_75 : percentile [1, 1, 1, 1, 1, 1, 10] 75 = 1 := by
  simp only [percentile]
  rw [mergeSort_rat_of_sorted (by decide)]
  rw [show (([1, 1, 1, 1, 1, 1, 10] : List ℚ).length) = 7 from rfl]
  rw [show ((75 : ℚ) * ((7 : ℕ) - 1) / 100) = 9 / 2 by push_cast; norm_num]
  rw [show ⌊(9 / 2 : ℚ)⌋ = 4 from Int.floor_eq_iff.mpr (by norm_num)]
  rw [show Int.toNat 4 = 4 from rfl]
  norm_num [List.getD]

theorem tukey_c6 : tukey_threshold [1, 1, 1, 1, 1, 1, 10] = 1 := by
  unfold tukey_threshold
  rw [percentile_c6_25, percentile_c6_75]
  norm_num

theorem c6_map : c6_residuals.map (fun q => |q.actual - q.predicted|) =
    [1, 1, 1, 1, 1, 1, 10] := by
  simp only [c6_residuals, List.map_cons, List.map_nil]
  norm_num

theorem c6_filter : (c6_residuals.filter fun p =>
    decide ((1 : ℚ) < |p.actual - p.predicted|)) = [⟨"t7", 10, 0⟩] := by
  have hno : ¬(decide ((1 : ℚ) < |(1 : ℚ) - 0|) = true) := by
    simp only [decide_eq_true_eq]
    norm_num
  have hyes : decide ((1 : ℚ) < |(10 : ℚ) - 0|) = true := by
    simp only [decide_eq_true_eq]
    norm_num
  simp only [c6_residuals, List.filter_cons, List.filter_nil]
  rw [if_neg hno, if_neg hno, if_neg hno, if_neg hno, if_neg hno, if_neg hno, if_pos hyes]

theorem c6_concrete :
    (detect_anomalies_isolation_forest c6_residuals).1 =
      [{ start := "t7", end_ := "t7", score := 1, type := "statistical_outlier",
         magnitude := 10 }] ∧
    (detect_anomalies_isolation_forest c6_residuals).2 = 1 / 7 := by
  obtain ⟨h1, h2⟩ := detect_characterization c6_residuals (by norm_num [c6_residuals])
  rw [c6_map, tukey_c6] at h1 h2
  constructor
  · rw [h1, c6_filter]
    simp only [List.map_cons, List.map_nil, mk_anomaly]
    rw [show |(10 : ℚ) - 0| = 10 by norm_num]
    rw [show min (1 : ℚ) (10 / (1 * 2)) = 1 from min_eq_left (by norm_num)]
    rw [roundTo_eq_of (k := 1000) (by norm_num) (by norm_num),
      roundTo_eq_of (k := 1000) (by norm_num) (by norm_num)]
    norm_num
  · rw [h2, c6_filter]
    norm_num [c6_residuals]

/-- C6: for every residual series of at least 7 points the detector flags
exactly the points whose absolute residual exceeds the Tukey threshold
`Q3 + 1.5*(Q3 - Q1)` (percentile interpolation over the absolute residuals),
each flagged point carrying `score = min(1, residual/(threshold*2))` rounded
to 3 decimals and `start = end = its timestamp`, with
`anomaly_rate = flagged/total`; in particular for residual magnitudes
`[1,1,1,1,1,1,10]` the threshold is 1, only the residual-10 point is flagged
(score 1, magnitude 10), and the rate is 1/7. -/
theorem C6_anomaly_detector :
    (∀ residuals : List AnomalyPoint, 7 ≤ residuals.length →
      (detect_anomalies_isolation_forest residuals).1 =
        (residuals.filter fun p =>
          decide (tukey_threshold (residuals.map fun q => |q.actual - q.predicted|) <
            |p.actual - p.predicted|)).map
          (fun p => mk_anomaly p
            (tukey_threshold (residuals.map fun q => |q.actual - q.predicted|))) ∧
      (detect_anomalies_isolation_forest residuals).2 =
        ((residuals.filter fun p =>
          decide (tukey_threshold (residuals.map fun q => |q.actual - q.predicted|) <
            |p.actual - p.predicted|)).length : ℚ) / residuals.length) ∧
    tukey_threshold (c6_residuals.map fun q => |q.actual - q.predicted|) = 1 ∧
    (detect_anomalies_isolation_forest c6_residuals).1 =
      [{ start := "t7", end_ := "t7", score := 1, type := "statistical_outlier",
         magnitude := 10 }] ∧
    (detect_anomalies_isolation_forest c6_residuals).2 = 1 / 7 := by
  refine ⟨fun residuals hlen => detect_characterization residuals hlen, ?_,
    c6_concrete.1, c6_concrete.2⟩
  rw [c6_map]
  exact tukey_c6

theorem C6_anomaly_detector_witness :
    7 ≤ c6_residuals.length ∧
    ((detect_anomalies_isolation_forest c6_residuals).1 =
      (c6_residuals.filter fun p =>
        decide (tukey_threshold (c6_residuals.map fun q => |q.actual - q.predicted|) <
          |p.actual - p.predicted|)).map
        (fun p => mk_anomaly p
          (tukey_threshold (c6_residuals.map fun q => |q.actual - q.predicted|))) ∧
     (detect_anomalies_isolation_forest c6_residuals).2 =
      ((c6_residuals.filter fun p =>
        decide (tukey_threshold (c6_residuals.map fun q => |q.actual - q.predicted|) <
          |p.actual - p.predicted|)).length : ℚ) / c6_residuals.length) :=
  ⟨by norm_num [c6_residuals],
   C6_anomaly_detector.1 c6_residuals (by norm_num [c6_residuals])⟩

end SolarGridXpert

